import Mathlib

/-!
Shallow embedding of createIndexApp.js from indexorg/create-index-app.

Modelling conventions:
- JavaScript manifest objects are ordered association lists of key-value
  pairs over a small JSON-like value type; the JavaScript value undefined
  is an absent key, modelled by Option.
- Functions that call process.exit or throw are modelled with Except or
  Option; an uncaught throw inside the async main function rejects the
  promise and terminates the Node process with a non-zero status, which the
  run model records as exit code 1.
- The whole program is modelled by run, a function from an environment
  (parsed arguments, filesystem and subprocess oracle results) to the
  ordered list of externally visible mutating effects plus the exit code.
  Console logging of the banner and progress steps is not recorded; the
  error messages printed by the template verifier are, since the spec
  talks about them.
-/

namespace CreateIndexApp

/-- JSON-like values stored in a package manifest: strings and objects.
Objects are ordered key-value lists, mirroring JavaScript object key
insertion order. -/
inductive JVal where
  | str : String → JVal
  | obj : List (String × JVal) → JVal

/-- Property access on a manifest object: the first binding of the key;
none models the JavaScript value undefined. -/
def jlookup (k : String) : List (String × JVal) → Option JVal
  | [] => none
  | (k2, v) :: rest => if k2 = k then some v else jlookup k rest

/-- Own properties of a JavaScript value as seen by object destructuring:
objects expose their bindings, a primitive string exposes none of the
manifest keys that cleanProject destructures. -/
def asObj : JVal → List (String × JVal)
  | .obj l => l
  | .str _ => []

/-- The well-known script names that cleanProject destructures first,
in the order they appear in the rebuilt object literal. -/
def wellKnownScripts : List String := ["prepare", "start", "build", "test"]

/-- The scripts map written back by cleanProject: the object literal lists
prepare, start, build, test first, then the rest-destructured remaining
scripts in their original relative order; JSON.stringify drops the entries
whose value is undefined. -/
def reorderScripts (s : List (String × JVal)) : List (String × JVal) :=
  (wellKnownScripts.filterMap fun k => (jlookup k s).map fun v => (k, v)) ++
    s.filter fun p => !wellKnownScripts.contains p.1

/-- A manifest field of the rebuilt top-level object: kept by
JSON.stringify only when its value is defined. -/
def optField (k : String) : Option JVal → List (String × JVal)
  | none => []
  | some v => [(k, v)]

/-- The manifest fields that survive cleanProject. -/
def cleanedFields : List String :=
  ["scripts", "webDependencies", "dependencies", "devDependencies"]

/-- The files removeSync deletes from the target directory in cleanProject,
in source order. -/
def cleanRemovals : List String :=
  ["package-lock.json", "node_modules", ".gitignore", ".npmignore", "LICENSE"]

/-- The manifest rewrite of cleanProject (lines 37-66 of the source).
The four fields are destructured from the loaded manifest and only they
are written back. Destructuring the script names out of an undefined
scripts value throws a TypeError, modelled as none. -/
def cleanProject (m : List (String × JVal)) : Option (List (String × JVal)) :=
  match jlookup "scripts" m with
  | none => none
  | some sv =>
      some (("scripts", JVal.obj (reorderScripts (asObj sv))) ::
        (optField "webDependencies" (jlookup "webDependencies" m) ++
          optField "dependencies" (jlookup "dependencies" m) ++
            optField "devDependencies" (jlookup "devDependencies" m)))

/-- The yargs-parser output fields the program destructures. template is
none when the flag is missing or not a string; positionals models the
underscore array (argv starts with the node binary and the script path). -/
structure RawArgs where
  template : Option String
  useYarn : Bool
  usePnpm : Bool
  force : Bool
  target : Option String
  verbose : Bool
  positionals : List String
deriving DecidableEq

/-- The distinct terminal validation failures of validateArgs, each of
which prints a message and exits the process with status 1. -/
inductive ValidationError where
  | conflictingPackageManager
  | packageManagerNotFound : String → ValidationError
  | missingTarget
  | missingTemplate
  | unexpectedArguments
  | missingTargetPath
  | targetExists
deriving DecidableEq

/-- The record validateArgs returns on success. -/
structure Config where
  template : String
  useYarn : Bool
  usePnpm : Bool
  targetDirectoryRelative : String
  targetDirectory : String
  verbose : Bool
deriving DecidableEq

/-- JavaScript truthiness of an optional string: undefined and the empty
string are falsy. -/
def strTruthy : Option String → Bool
  | none => false
  | some s => !(s == "")

/-- path.resolve of a relative segment against an absolute base, for the
paths this program builds. -/
def pathResolve (base rel : String) : String := base ++ "/" ++ rel

/-- path.join of two segments, for the paths this program builds. -/
def pathJoin (a b : String) : String := a ++ "/" ++ b

/-- validateArgs (lines 99-146 of the source). yarnInstalled and
pnpmInstalled are the results of the hasPmInstalled version probes;
fsExists is fs.existsSync. Checks run in source order and the first
failing one terminates the process. path.resolve against an undefined
relative target throws, modelled as missingTargetPath. -/
def validateArgs (cwd : String) (a : RawArgs) (yarnInstalled pnpmInstalled : Bool)
    (fsExists : String → Bool) : Except ValidationError Config :=
  if a.useYarn && a.usePnpm then .error .conflictingPackageManager
  else if a.useYarn && !yarnInstalled then .error (.packageManagerNotFound "yarn")
  else if a.usePnpm && !pnpmInstalled then .error (.packageManagerNotFound "pnpm")
  else if !strTruthy a.target && a.positionals.length == 2 then .error .missingTarget
  else
    match a.template with
    | none => .error .missingTemplate
    | some tpl =>
      if a.positionals.length > 3 then .error .unexpectedArguments
      else
        match (if strTruthy a.target then a.target else a.positionals.get? 2) with
        | none => .error .missingTargetPath
        | some rel =>
          if fsExists (pathResolve cwd rel) && !a.force then .error .targetExists
          else .ok ⟨tpl, a.useYarn, a.usePnpm, rel, pathResolve cwd rel, a.verbose⟩

/-- Line 163 of the source: a template identifier is local exactly when it
starts with a dot (the startsWith check against the one-character string,
expressed on the identifier's first character). -/
def isLocalTemplate (template : String) : Bool :=
  match template.data with
  | [] => false
  | c :: _ => c == '.'

/-- Lines 164-166: where the template's files are found: a local
identifier resolves against the working directory, a registry identifier
under the target directory's node_modules. -/
def installedTemplate (cwd targetDirectory template : String) : String :=
  if isLocalTemplate template then pathResolve cwd template
  else pathJoin (pathJoin targetDirectory "node_modules") template

/-- The sentinel keyword that authorizes a template. -/
def sentinelTag : String := "create-index-app--template"

/-- The two terminal failures of verifyProjectTemplate. -/
inductive VerifyError where
  | verificationUnavailable
  | unauthorizedTemplate
deriving DecidableEq

/-- The issue-tracker link included in the verifier's error messages. -/
def errorLink : String := "https://github.com/indexorg/create-index-app/issues"

/-- The guidance message verifyProjectTemplate prints for each failure
before exiting with status 1. -/
def verifyErrorMsg : VerifyError → String
  | .verificationUnavailable =>
      "Cannot verify external template safely. If you believe this is incorrect, create an issue here:\n"
        ++ errorLink
  | .unauthorizedTemplate =>
      "The provided template is not an Index app template. Check the template name or create an issue here:\n"
        ++ errorLink

/-- verifyProjectTemplate (lines 69-97). For a local template the keyword
list is read from the manifest in the template directory (localKeywords,
none when the manifest has no keywords field); for a remote template it
comes from an npm info subprocess whose failure, or unparsable output, is
the error case of remoteQuery. A failed query exits inside the catch
block; otherwise the keyword list must contain the sentinel tag. -/
def verifyProjectTemplate (isLocal : Bool) (localKeywords : Option (List String))
    (remoteQuery : Except Unit (List String)) : Except VerifyError Unit :=
  let keywords : Except VerifyError (Option (List String)) :=
    if isLocal then .ok localKeywords
    else
      match remoteQuery with
      | .error _ => .error .verificationUnavailable
      | .ok ks => .ok (some ks)
  match keywords with
  | .error e => .error e
  | .ok none => .error .unauthorizedTemplate
  | .ok (some ks) =>
      if ks.contains sentinelTag then .ok () else .error .unauthorizedTemplate

/-- Lines 156-161: the selected package manager. -/
def installerOf (cfg : Config) : String :=
  if cfg.useYarn then "yarn" else if cfg.usePnpm then "pnpm" else "npm"

/-- Lines 213-220: the argument vector of the npm subprocess that fetches
a remote template into the target directory (run with cwd set to the
target directory and combined output capture). -/
def remoteFetchArgs (template : String) (verbose : Bool) : List String :=
  ["install", template, "--ignore-scripts", "--loglevel",
    if verbose then "verbose" else "error"]

/-- installProcess (lines 240-259): the final dependency install command
per package manager, as the switch cases in source order; an unknown
manager throws, modelled as none. -/
def installProcess (packageManager : String) (verbose : Bool) :
    Option (String × List String) :=
  if packageManager = "npm" then
    some ("npm", ["install", "--loglevel", if verbose then "verbose" else "error"])
  else if packageManager = "yarn" then
    some ("yarn", [if verbose then "--verbose" else "--silent"])
  else if packageManager = "pnpm" then
    some ("pnpm", ["install", "--reporter=" ++ (if verbose then "default" else "silent")])
  else none

/-- The externally visible effects of a run, in execution order. -/
inductive Effect where
  | printErrorMsg : String → Effect
  | mkdirTarget
  | writePlaceholder
  | remoteFetch : String → List String → Effect
  | printFetchOutput
  | copyTemplate
  | removePath : String → Effect
  | writeCleanedManifest
  | runFinalInstall : String → List String → Effect
deriving DecidableEq

/-- Outcome of a whole run: the effect trace and the process exit code. -/
structure RunResult where
  effects : List Effect
  exitCode : Nat
deriving DecidableEq

/-- Everything outside the program that a run observes: the parsed
arguments, the oracle answers of the filesystem and of each subprocess,
and the manifest found in the target directory after the copy step. -/
structure Env where
  args : RawArgs
  cwd : String
  yarnInstalled : Bool
  pnpmInstalled : Bool
  fsExists : String → Bool
  nodeMajor : Nat
  localTemplateKeywords : Option (List String)
  remoteKeywordsQuery : Except Unit (List String)
  remoteFetchOk : Bool
  copiedManifest : List (String × JVal)
  finalInstallOk : Bool

/-- The tail of the run after the template fetch stage: copy the template,
clean the project (file removals, then the manifest rewrite, which throws
when the copied manifest has no scripts field), then run the final
dependency install whose failure rejects and exits non-zero. -/
def runAfterFetch (env : Env) (cfg : Config) (pre : List Effect) : RunResult :=
  let pre2 := pre ++ [Effect.copyTemplate] ++ cleanRemovals.map Effect.removePath
  match cleanProject env.copiedManifest with
  | none => ⟨pre2, 1⟩
  | some _ =>
      let pre3 := pre2 ++ [Effect.writeCleanedManifest]
      match installProcess (installerOf cfg) cfg.verbose with
      | none => ⟨pre3, 1⟩
      | some (exe, cmdArgs) =>
          ⟨pre3 ++ [Effect.runFinalInstall exe cmdArgs],
            if env.finalInstallOk then 0 else 1⟩

/-- The whole program (lines 148-271): validateArgs at module load, the
Node version gate, template verification, then directory creation,
placeholder manifest, the remote fetch when the template is not local
(printing the captured output and rethrowing on failure), copy, cleanup
and the final install. -/
def run (env : Env) : RunResult :=
  match validateArgs env.cwd env.args env.yarnInstalled env.pnpmInstalled env.fsExists with
  | .error _ => ⟨[], 1⟩
  | .ok cfg =>
      if env.nodeMajor < 10 then ⟨[], 1⟩
      else
        match verifyProjectTemplate (isLocalTemplate cfg.template)
            env.localTemplateKeywords env.remoteKeywordsQuery with
        | .error e => ⟨[Effect.printErrorMsg (verifyErrorMsg e)], 1⟩
        | .ok _ =>
            let pre := [Effect.mkdirTarget, Effect.writePlaceholder]
            if isLocalTemplate cfg.template then runAfterFetch env cfg pre
            else
              let fetch := Effect.remoteFetch "npm"
                (remoteFetchArgs cfg.template cfg.verbose)
              if env.remoteFetchOk then runAfterFetch env cfg (pre ++ [fetch])
              else ⟨pre ++ [fetch, Effect.printFetchOutput], 1⟩

/-- The package-manager command mapping exactly as the specification's
table states it, for comparison with installProcess. -/
def specInstallCommand (cfg : Config) : String × List String :=
  if cfg.useYarn then ("yarn", [if cfg.verbose then "--verbose" else "--silent"])
  else if cfg.usePnpm then
    ("pnpm", ["install", "--reporter=" ++ (if cfg.verbose then "default" else "silent")])
  else ("npm", ["install", "--loglevel", if cfg.verbose then "verbose" else "error"])

/-- Recognizer of the final dependency-install effect. -/
def isFinalInstallEffect : Effect → Bool
  | .runFinalInstall _ _ => true
  | _ => false

/-! Concrete data used by the witnesses. -/

/-- The input manifest of the specification's round-trip example. -/
def exampleManifest : List (String × JVal) :=
  [("scripts", JVal.obj
      [("build", JVal.str "x"), ("prepare", JVal.str "y"), ("custom", JVal.str "z")]),
   ("dependencies", JVal.obj [("a", JVal.str "1")]),
   ("devDependencies", JVal.obj []),
   ("webDependencies", JVal.obj []),
   ("extraField", JVal.str "drop-me")]

/-- The output manifest of the specification's round-trip example. -/
def exampleCleaned : List (String × JVal) :=
  [("scripts", JVal.obj
      [("prepare", JVal.str "y"), ("build", JVal.str "x"), ("custom", JVal.str "z")]),
   ("webDependencies", JVal.obj []),
   ("dependencies", JVal.obj [("a", JVal.str "1")]),
   ("devDependencies", JVal.obj [])]

/-- A manifest with no scripts field. -/
def manifestNoScripts : List (String × JVal) :=
  [("dependencies", JVal.obj []), ("name", JVal.str "demo")]

/-- A well-formed argument set: local template, explicit target flag. -/
def argsLocalOk : RawArgs :=
  ⟨some "./tpl", false, false, false, some "app", false, ["node", "script"]⟩

/-- A well-formed argument set naming a registry template. -/
def argsRemoteOk : RawArgs :=
  ⟨some "somepkg", false, false, false, some "app", false, ["node", "script"]⟩

/-- An argument set with both package-manager flags raised. -/
def argsBothPm : RawArgs :=
  ⟨some "somepkg", true, true, false, some "app", false, ["node", "script"]⟩

/-- A fully successful environment: authorized local template, fresh
target, every subprocess succeeding. -/
def envOk : Env :=
  ⟨argsLocalOk, "/w", true, true, fun _ => false, 16, some [sentinelTag],
    Except.ok [], true, [("scripts", JVal.obj [])], true⟩

/-- Like envOk but the local template's manifest lacks the sentinel tag. -/
def envNoSentinel : Env :=
  ⟨argsLocalOk, "/w", true, true, fun _ => false, 16, some ["other"],
    Except.ok [], true, [("scripts", JVal.obj [])], true⟩

/-- A remote template whose registry metadata query fails. -/
def envQueryFail : Env :=
  ⟨argsRemoteOk, "/w", true, true, fun _ => false, 16, none,
    Except.error (), true, [("scripts", JVal.obj [])], true⟩

/-- An authorized remote template whose fetch subprocess fails. -/
def envFetchFail : Env :=
  ⟨argsRemoteOk, "/w", true, true, fun _ => false, 16, none,
    Except.ok [sentinelTag], false, [("scripts", JVal.obj [])], true⟩

/-- A run whose resolved target directory already exists, without force. -/
def envTargetTaken : Env :=
  ⟨argsLocalOk, "/w", true, true, fun _ => true, 16, some [sentinelTag],
    Except.ok [], true, [("scripts", JVal.obj [])], true⟩

/-- Both package-manager flags raised. -/
def envBothPm : Env :=
  ⟨argsBothPm, "/w", true, true, fun _ => false, 16, some [sentinelTag],
    Except.ok [], true, [("scripts", JVal.obj [])], true⟩

/-- Like envOk but the final dependency install fails. -/
def envInstallFail : Env :=
  ⟨argsLocalOk, "/w", true, true, fun _ => false, 16, some [sentinelTag],
    Except.ok [], true, [("scripts", JVal.obj [])], false⟩

/-- The configuration validateArgs produces for argsLocalOk in envOk. -/
def cfgLocalOk : Config := ⟨"./tpl", false, false, "app", "/w/app", false⟩

/-- The configuration validateArgs produces for argsRemoteOk. -/
def cfgRemoteOk : Config := ⟨"somepkg", false, false, "app", "/w/app", false⟩

/-! Helper lemmas about manifest lookup. -/

/-- Lookup skips a binding with a different key. -/
theorem jlookup_cons_ne (k k2 : String) (v : JVal) (rest : List (String × JVal))
    (h : k2 ≠ k) : jlookup k ((k2, v) :: rest) = jlookup k rest := by
  simp [jlookup, h]

/-- Lookup distributes over append, preferring the left list. -/
theorem jlookup_append (k : String) (l1 l2 : List (String × JVal)) :
    jlookup k (l1 ++ l2) =
      match jlookup k l1 with
      | some v => some v
      | none => jlookup k l2 := by
  induction l1 with
  | nil => simp [jlookup]
  | cons p rest ih =>
      obtain ⟨k2, v⟩ := p
      by_cases h : k2 = k
      · simp [jlookup, h]
      · simp [jlookup, h, ih]

/-- Lookup of the field's own key in an optional field. -/
theorem jlookup_optField_self (k : String) (o : Option JVal) :
    jlookup k (optField k o) = o := by
  cases o <;> simp [optField, jlookup]

/-- Lookup of a different key in an optional field. -/
theorem jlookup_optField_of_ne (k k2 : String) (h : k2 ≠ k) (o : Option JVal) :
    jlookup k (optField k2 o) = none := by
  cases o <;> simp [optField, jlookup, h]

/-- A pair in an optional field carries the field's key. -/
theorem mem_optField_key (k k2 : String) (v : JVal) (o : Option JVal)
    (h : (k, v) ∈ optField k2 o) : k = k2 := by
  cases o with
  | none => simp [optField] at h
  | some w =>
      simp [optField] at h
      exact h.1

/-- What a successful validation guarantees: the template passed through,
the relative target came from the flag or the third positional, the target
directory is its resolution against the working directory, and the
existence check passed (absent directory, or overwrite forced). -/
theorem validateArgs_ok_elim (cwd : String) (a : RawArgs) (y p : Bool)
    (fs : String → Bool) (cfg : Config)
    (h : validateArgs cwd a y p fs = Except.ok cfg) :
    a.template = some cfg.template ∧
    (if strTruthy a.target = true then a.target else a.positionals.get? 2) =
      some cfg.targetDirectoryRelative ∧
    cfg.targetDirectory = pathResolve cwd cfg.targetDirectoryRelative ∧
    (fs cfg.targetDirectory && !a.force) = false ∧
    cfg.useYarn = a.useYarn ∧ cfg.usePnpm = a.usePnpm ∧ cfg.verbose = a.verbose := by
  unfold validateArgs at h
  repeat' split at h
  all_goals try (exact Except.noConfusion h)
  rename_i x1 tplv htpl hlen x2 rel htgt hcond
  injection h with h2
  subst h2
  refine ⟨htpl, htgt, rfl, ?_, rfl, rfl, rfl⟩
  simpa using hcond

/-- An effect of the stage before the fetch survives into the final trace. -/
theorem runAfterFetch_mem_pre (env : Env) (cfg : Config) (pre : List Effect)
    (e : Effect) (h : e ∈ pre) : e ∈ (runAfterFetch env cfg pre).effects := by
  unfold runAfterFetch
  repeat' split
  all_goals simp [h]

/-- Exit code zero after the fetch stage requires the final install to
have succeeded. -/
theorem runAfterFetch_exit_zero (env : Env) (cfg : Config) (pre : List Effect)
    (h : (runAfterFetch env cfg pre).exitCode = 0) : env.finalInstallOk = true := by
  unfold runAfterFetch at h
  repeat' split at h
  all_goals cases hf : env.finalInstallOk <;> simp_all

/-- A failing final install forces exit code one. -/
theorem runAfterFetch_install_fail (env : Env) (cfg : Config) (pre : List Effect)
    (h : env.finalInstallOk = false) :
    (runAfterFetch env cfg pre).exitCode = 1 := by
  unfold runAfterFetch
  repeat' split
  all_goals simp_all

/-- The final install subprocess is started at most once. -/
theorem runAfterFetch_final_once (env : Env) (cfg : Config) (pre : List Effect)
    (h : pre.filter isFinalInstallEffect = []) :
    ((runAfterFetch env cfg pre).effects.filter isFinalInstallEffect).length ≤ 1 := by
  unfold runAfterFetch
  repeat' split
  all_goals simp [List.filter_append, h, isFinalInstallEffect, cleanRemovals]

/-- A zero exit code after the fetch stage records the final install
command computed by installProcess in the trace. -/
theorem runAfterFetch_final_cmd (env : Env) (cfg : Config) (pre : List Effect)
    (h : (runAfterFetch env cfg pre).exitCode = 0) :
    ∃ exe cmdArgs,
      installProcess (installerOf cfg) cfg.verbose = some (exe, cmdArgs) ∧
      Effect.runFinalInstall exe cmdArgs ∈ (runAfterFetch env cfg pre).effects := by
  rcases hclean : cleanProject env.copiedManifest with _ | m
  · unfold runAfterFetch at h
    rw [hclean] at h
    simp at h
  · rcases hinst : installProcess (installerOf cfg) cfg.verbose with _ | ⟨exe, cmdArgs⟩
    · unfold runAfterFetch at h
      rw [hclean, hinst] at h
      simp at h
    · refine ⟨exe, cmdArgs, rfl, ?_⟩
      unfold runAfterFetch
      rw [hclean, hinst]
      simp

/-- run, rewritten past a successful validation and version gate. -/
theorem run_ok_unfold (env : Env) (cfg : Config)
    (hval : validateArgs env.cwd env.args env.yarnInstalled env.pnpmInstalled
        env.fsExists = Except.ok cfg)
    (hnode : 10 ≤ env.nodeMajor) :
    run env =
      match verifyProjectTemplate (isLocalTemplate cfg.template)
          env.localTemplateKeywords env.remoteKeywordsQuery with
      | .error e => ⟨[Effect.printErrorMsg (verifyErrorMsg e)], 1⟩
      | .ok _ =>
          if isLocalTemplate cfg.template then
            runAfterFetch env cfg [Effect.mkdirTarget, Effect.writePlaceholder]
          else if env.remoteFetchOk then
            runAfterFetch env cfg
              [Effect.mkdirTarget, Effect.writePlaceholder,
                Effect.remoteFetch "npm" (remoteFetchArgs cfg.template cfg.verbose)]
          else
            ⟨[Effect.mkdirTarget, Effect.writePlaceholder,
                Effect.remoteFetch "npm" (remoteFetchArgs cfg.template cfg.verbose),
                Effect.printFetchOutput], 1⟩ := by
  unfold run
  rw [hval]
  simp only [Nat.not_lt.mpr hnode, if_false]
  rfl

/-- The run of a verified local template. -/
theorem run_verified_local (env : Env) (cfg : Config)
    (hval : validateArgs env.cwd env.args env.yarnInstalled env.pnpmInstalled
        env.fsExists = Except.ok cfg)
    (hnode : 10 ≤ env.nodeMajor)
    (hver : verifyProjectTemplate (isLocalTemplate cfg.template)
        env.localTemplateKeywords env.remoteKeywordsQuery = Except.ok ())
    (hl : isLocalTemplate cfg.template = true) :
    run env = runAfterFetch env cfg [Effect.mkdirTarget, Effect.writePlaceholder] := by
  rw [run_ok_unfold env cfg hval hnode, hver]
  simp [hl]

/-- The run of a verified remote template whose fetch succeeds. -/
theorem run_verified_remote_ok (env : Env) (cfg : Config)
    (hval : validateArgs env.cwd env.args env.yarnInstalled env.pnpmInstalled
        env.fsExists = Except.ok cfg)
    (hnode : 10 ≤ env.nodeMajor)
    (hver : verifyProjectTemplate (isLocalTemplate cfg.template)
        env.localTemplateKeywords env.remoteKeywordsQuery = Except.ok ())
    (hl : isLocalTemplate cfg.template = false)
    (hf : env.remoteFetchOk = true) :
    run env = runAfterFetch env cfg
      [Effect.mkdirTarget, Effect.writePlaceholder,
        Effect.remoteFetch "npm" (remoteFetchArgs cfg.template cfg.verbose)] := by
  rw [run_ok_unfold env cfg hval hnode, hver]
  simp [hl, hf]

/-- The run of a verified remote template whose fetch fails. -/
theorem run_verified_remote_fail (env : Env) (cfg : Config)
    (hval : validateArgs env.cwd env.args env.yarnInstalled env.pnpmInstalled
        env.fsExists = Except.ok cfg)
    (hnode : 10 ≤ env.nodeMajor)
    (hver : verifyProjectTemplate (isLocalTemplate cfg.template)
        env.localTemplateKeywords env.remoteKeywordsQuery = Except.ok ())
    (hl : isLocalTemplate cfg.template = false)
    (hf : env.remoteFetchOk = false) :
    run env =
      ⟨[Effect.mkdirTarget, Effect.writePlaceholder,
          Effect.remoteFetch "npm" (remoteFetchArgs cfg.template cfg.verbose),
          Effect.printFetchOutput], 1⟩ := by
  rw [run_ok_unfold env cfg hval hnode, hver]
  simp [hl, hf]

/-- C3: the cleaning step maps the specification's round-trip example to
its stated output, keeps only the four retained manifest fields, preserves
the values of webDependencies, dependencies and devDependencies, and
rewrites the scripts map with the well-known script names first. -/
theorem c3_cleanProject_retention_and_round_trip :
    cleanProject exampleManifest = some exampleCleaned ∧
    (∀ m out, cleanProject m = some out → ∀ k v, (k, v) ∈ out → k ∈ cleanedFields) ∧
    (∀ m sv, jlookup "scripts" m = some sv →
      ∃ out, cleanProject m = some out ∧
        jlookup "scripts" out = some (JVal.obj (reorderScripts (asObj sv))) ∧
        jlookup "webDependencies" out = jlookup "webDependencies" m ∧
        jlookup "dependencies" out = jlookup "dependencies" m ∧
        jlookup "devDependencies" out = jlookup "devDependencies" m) := by
  refine ⟨rfl, ?_, ?_⟩
  · intro m out h k v hmem
    rcases hs : jlookup "scripts" m with _ | sv
    · simp [cleanProject, hs] at h
    · simp only [cleanProject, hs, Option.some.injEq] at h
      subst h
      rcases List.mem_cons.mp hmem with hh | ht
      · injection hh with h1 h2
        subst h1
        simp [cleanedFields]
      · rcases List.mem_append.mp ht with h12 | h3
        · rcases List.mem_append.mp h12 with h1 | h2
          · have hk := mem_optField_key _ _ _ _ h1
            subst hk
            simp [cleanedFields]
          · have hk := mem_optField_key _ _ _ _ h2
            subst hk
            simp [cleanedFields]
        · have hk := mem_optField_key _ _ _ _ h3
          subst hk
          simp [cleanedFields]
  · intro m sv hs
    refine ⟨("scripts", JVal.obj (reorderScripts (asObj sv))) ::
        (optField "webDependencies" (jlookup "webDependencies" m) ++
          optField "dependencies" (jlookup "dependencies" m) ++
            optField "devDependencies" (jlookup "devDependencies" m)),
      by simp [cleanProject, hs], ?_, ?_, ?_, ?_⟩
    · simp [jlookup]
    · rw [jlookup_cons_ne _ _ _ _ (by decide), List.append_assoc,
        jlookup_append, jlookup_optField_self]
      rcases h1 : jlookup "webDependencies" m with _ | v
      · simp [jlookup_append,
          jlookup_optField_of_ne "webDependencies" "dependencies" (by decide),
          jlookup_optField_of_ne "webDependencies" "devDependencies" (by decide)]
      · simp
    · rw [jlookup_cons_ne _ _ _ _ (by decide), List.append_assoc,
        jlookup_append,
        jlookup_optField_of_ne "dependencies" "webDependencies" (by decide)]
      rw [jlookup_append, jlookup_optField_self]
      rcases h1 : jlookup "dependencies" m with _ | v
      · simp [jlookup_optField_of_ne "dependencies" "devDependencies" (by decide)]
      · simp
    · rw [jlookup_cons_ne _ _ _ _ (by decide), List.append_assoc,
        jlookup_append,
        jlookup_optField_of_ne "devDependencies" "webDependencies" (by decide)]
      rw [jlookup_append,
        jlookup_optField_of_ne "devDependencies" "dependencies" (by decide)]
      rw [jlookup_optField_self]

/-- C10: the cleanup's manifest rewrite requires a defined scripts field:
destructuring an absent scripts value throws, so the rewrite produces no
cleaned manifest; with scripts defined it always produces one. -/
theorem c10_cleanProject_requires_scripts (m : List (String × JVal)) :
    (jlookup "scripts" m = none → cleanProject m = none) ∧
    (∀ sv, jlookup "scripts" m = some sv → (cleanProject m).isSome = true) := by
  constructor
  · intro h
    simp [cleanProject, h]
  · intro sv h
    simp [cleanProject, h]

/-- Witness for C10 at a manifest with no scripts field. -/
theorem c10_cleanProject_requires_scripts_witness :
    jlookup "scripts" manifestNoScripts = none ∧ cleanProject manifestNoScripts = none :=
  ⟨rfl, (c10_cleanProject_requires_scripts manifestNoScripts).1 rfl⟩

/-- C7: when both the yarn flag and the pnpm flag are set, validation
fails with the conflicting-package-manager error, the process exits with
status 1 and performs no effect, whatever the other arguments are. -/
theorem c7_conflicting_package_managers (env : Env)
    (hy : env.args.useYarn = true) (hp : env.args.usePnpm = true) :
    validateArgs env.cwd env.args env.yarnInstalled env.pnpmInstalled env.fsExists =
      Except.error ValidationError.conflictingPackageManager ∧
    (run env).exitCode = 1 ∧ (run env).effects = [] := by
  have h : validateArgs env.cwd env.args env.yarnInstalled env.pnpmInstalled env.fsExists =
      Except.error ValidationError.conflictingPackageManager := by
    simp [validateArgs, hy, hp]
  refine ⟨h, ?_, ?_⟩ <;> simp [run, h]

/-- Witness for C7 at a concrete argument set raising both flags. -/
theorem c7_conflicting_package_managers_witness :
    validateArgs envBothPm.cwd envBothPm.args envBothPm.yarnInstalled
        envBothPm.pnpmInstalled envBothPm.fsExists =
      Except.error ValidationError.conflictingPackageManager ∧
    (run envBothPm).exitCode = 1 ∧ (run envBothPm).effects = [] :=
  c7_conflicting_package_managers envBothPm rfl rfl

/-- C8: a template identifier starting with a dot is classified local and
its files are resolved against the working directory; any other identifier
is classified as a registry package whose files live under the target
directory's node_modules. -/
theorem c8_template_classification (cwd targetDirectory t : String) :
    (t.data.head? = some '.' → isLocalTemplate t = true ∧
      installedTemplate cwd targetDirectory t = pathResolve cwd t) ∧
    (t.data.head? ≠ some '.' → isLocalTemplate t = false ∧
      installedTemplate cwd targetDirectory t =
        pathJoin (pathJoin targetDirectory "node_modules") t) := by
  constructor
  · intro h
    have hl : isLocalTemplate t = true := by
      unfold isLocalTemplate
      rcases hd : t.data with _ | ⟨c, rest⟩
      · simp [hd] at h
      · simp [hd] at h
        simp [h]
    exact ⟨hl, by simp [installedTemplate, hl]⟩
  · intro h
    have hl : isLocalTemplate t = false := by
      unfold isLocalTemplate
      rcases hd : t.data with _ | ⟨c, rest⟩
      · rfl
      · simp [hd] at h
        simp [h]
    exact ⟨hl, by simp [installedTemplate, hl]⟩

/-- Witness for C8 at a local and at a registry identifier. -/
theorem c8_template_classification_witness :
    (isLocalTemplate "./tpl" = true ∧
      installedTemplate "/w" "/w/app" "./tpl" = pathResolve "/w" "./tpl") ∧
    (isLocalTemplate "somepkg" = false ∧
      installedTemplate "/w" "/w/app" "somepkg" =
        pathJoin (pathJoin "/w/app" "node_modules") "somepkg") :=
  ⟨(c8_template_classification "/w" "/w/app" "./tpl").1 rfl,
    (c8_template_classification "/w" "/w/app" "somepkg").2 (by decide)⟩

/-- C1: template files are copied only in runs whose template passed
verification, and whenever verification does not pass the run exits with
status 1 without copying anything. -/
theorem c1_copy_requires_verification (env : Env) :
    (Effect.copyTemplate ∈ (run env).effects →
      ∃ cfg, validateArgs env.cwd env.args env.yarnInstalled env.pnpmInstalled
          env.fsExists = Except.ok cfg ∧
        verifyProjectTemplate (isLocalTemplate cfg.template)
          env.localTemplateKeywords env.remoteKeywordsQuery = Except.ok ()) ∧
    (∀ cfg, validateArgs env.cwd env.args env.yarnInstalled env.pnpmInstalled
        env.fsExists = Except.ok cfg →
      verifyProjectTemplate (isLocalTemplate cfg.template)
        env.localTemplateKeywords env.remoteKeywordsQuery ≠ Except.ok () →
      (run env).exitCode = 1 ∧ Effect.copyTemplate ∉ (run env).effects) := by
  constructor
  · intro hmem
    rcases hval : validateArgs env.cwd env.args env.yarnInstalled env.pnpmInstalled
        env.fsExists with e | cfg
    · unfold run at hmem
      rw [hval] at hmem
      simp at hmem
    · by_cases hn : env.nodeMajor < 10
      · unfold run at hmem
        rw [hval] at hmem
        simp [hn] at hmem
      · rw [run_ok_unfold env cfg hval (Nat.le_of_not_lt hn)] at hmem
        rcases hver : verifyProjectTemplate (isLocalTemplate cfg.template)
            env.localTemplateKeywords env.remoteKeywordsQuery with e2 | u
        · rw [hver] at hmem
          simp at hmem
        · cases u
          exact ⟨cfg, rfl, hver⟩
  · intro cfg hval hver
    by_cases hn : env.nodeMajor < 10
    · unfold run
      rw [hval]
      simp [hn]
    · rw [run_ok_unfold env cfg hval (Nat.le_of_not_lt hn)]
      rcases hv2 : verifyProjectTemplate (isLocalTemplate cfg.template)
          env.localTemplateKeywords env.remoteKeywordsQuery with e2 | u
      · simp
      · cases u
        exact absurd hv2 hver

/-- Witness for C1: a local template whose keywords lack the sentinel tag
makes the run exit 1 without a copy. -/
theorem c1_copy_requires_verification_witness :
    (run envNoSentinel).exitCode = 1 ∧
    Effect.copyTemplate ∉ (run envNoSentinel).effects :=
  (c1_copy_requires_verification envNoSentinel).2 cfgLocalOk rfl
    (fun h => Except.noConfusion h)

/-- C2: a remote template whose registry keyword query fails is rejected
as VerificationUnavailable: the run prints the guidance message, exits
with status 1 and never copies. -/
theorem c2_failed_query_fails_closed (env : Env) (cfg : Config)
    (hval : validateArgs env.cwd env.args env.yarnInstalled env.pnpmInstalled
        env.fsExists = Except.ok cfg)
    (hnode : 10 ≤ env.nodeMajor)
    (hloc : isLocalTemplate cfg.template = false)
    (hq : env.remoteKeywordsQuery = Except.error ()) :
    verifyProjectTemplate (isLocalTemplate cfg.template) env.localTemplateKeywords
        env.remoteKeywordsQuery = Except.error VerifyError.verificationUnavailable ∧
    (run env).effects =
      [Effect.printErrorMsg (verifyErrorMsg VerifyError.verificationUnavailable)] ∧
    (run env).exitCode = 1 ∧
    Effect.copyTemplate ∉ (run env).effects := by
  have hv : verifyProjectTemplate (isLocalTemplate cfg.template)
      env.localTemplateKeywords env.remoteKeywordsQuery =
      Except.error VerifyError.verificationUnavailable := by
    simp [verifyProjectTemplate, hloc, hq]
  have hrun : run env =
      ⟨[Effect.printErrorMsg (verifyErrorMsg VerifyError.verificationUnavailable)], 1⟩ := by
    rw [run_ok_unfold env cfg hval hnode, hv]
  refine ⟨hv, ?_, ?_, ?_⟩ <;> simp [hrun]

/-- Witness for C2 at a concrete failing registry query. -/
theorem c2_failed_query_fails_closed_witness :
    (run envQueryFail).effects =
      [Effect.printErrorMsg (verifyErrorMsg VerifyError.verificationUnavailable)] ∧
    (run envQueryFail).exitCode = 1 ∧
    Effect.copyTemplate ∉ (run envQueryFail).effects :=
  (c2_failed_query_fails_closed envQueryFail cfgRemoteOk rfl (by decide) rfl rfl).2

/-- C4: when the resolved target directory exists and overwrite is not
forced, validation fails, the run exits with status 1 and performs no
filesystem effect at all. -/
theorem c4_existing_target_blocks_everything (env : Env)
    (hforce : env.args.force = false)
    (hexists : ∀ rel,
      (if strTruthy env.args.target = true then env.args.target
        else env.args.positionals.get? 2) = some rel →
      env.fsExists (pathResolve env.cwd rel) = true) :
    (run env).exitCode = 1 ∧ (run env).effects = [] := by
  rcases hval : validateArgs env.cwd env.args env.yarnInstalled env.pnpmInstalled
      env.fsExists with e | cfg
  · unfold run
    rw [hval]
    simp
  · exfalso
    obtain ⟨-, htgt, htd, hchk, -, -, -⟩ := validateArgs_ok_elim _ _ _ _ _ _ hval
    have h1 := hexists _ htgt
    rw [htd, h1, hforce] at hchk
    simp at hchk

/-- Witness for C4: a pre-existing target directory without force. -/
theorem c4_existing_target_blocks_everything_witness :
    (run envTargetTaken).exitCode = 1 ∧ (run envTargetTaken).effects = [] :=
  c4_existing_target_blocks_everything envTargetTaken rfl (fun _ _ => rfl)

/-- C5: a remote template is fetched by an npm install of the template
into the target directory with lifecycle scripts disabled and a
verbosity-controlled log level, and a failing fetch prints the captured
combined output and aborts with status 1 before any copy. -/
theorem c5_remote_fetch_scripts_disabled (env : Env) (cfg : Config)
    (hval : validateArgs env.cwd env.args env.yarnInstalled env.pnpmInstalled
        env.fsExists = Except.ok cfg)
    (hnode : 10 ≤ env.nodeMajor)
    (hver : verifyProjectTemplate (isLocalTemplate cfg.template)
        env.localTemplateKeywords env.remoteKeywordsQuery = Except.ok ())
    (hloc : isLocalTemplate cfg.template = false) :
    remoteFetchArgs cfg.template cfg.verbose =
      ["install", cfg.template, "--ignore-scripts", "--loglevel",
        if cfg.verbose then "verbose" else "error"] ∧
    Effect.remoteFetch "npm" (remoteFetchArgs cfg.template cfg.verbose) ∈
      (run env).effects ∧
    (env.remoteFetchOk = false →
      (run env).exitCode = 1 ∧
      Effect.printFetchOutput ∈ (run env).effects ∧
      Effect.copyTemplate ∉ (run env).effects) := by
  refine ⟨rfl, ?_, ?_⟩
  · rcases hf : env.remoteFetchOk with _ | _
    · rw [run_verified_remote_fail env cfg hval hnode hver hloc hf]
      simp
    · rw [run_verified_remote_ok env cfg hval hnode hver hloc hf]
      exact runAfterFetch_mem_pre _ _ _ _ (by simp)
  · intro hf
    rw [run_verified_remote_fail env cfg hval hnode hver hloc hf]
    simp

/-- Witness for C5 at a concrete failing remote fetch. -/
theorem c5_remote_fetch_scripts_disabled_witness :
    (run envFetchFail).exitCode = 1 ∧
    Effect.printFetchOutput ∈ (run envFetchFail).effects ∧
    Effect.copyTemplate ∉ (run envFetchFail).effects :=
  (c5_remote_fetch_scripts_disabled envFetchFail cfgRemoteOk rfl (by decide)
    rfl rfl).2.2 rfl

/-- C6: the run exits 0 only if the final dependency install succeeded, a
failing final install makes it exit 1, and the install subprocess is never
started more than once (no retry). -/
theorem c6_final_install_failure_is_fatal (env : Env) :
    ((run env).exitCode = 0 → env.finalInstallOk = true) ∧
    (env.finalInstallOk = false → (run env).exitCode = 1) ∧
    ((run env).effects.filter isFinalInstallEffect).length ≤ 1 := by
  rcases hval : validateArgs env.cwd env.args env.yarnInstalled env.pnpmInstalled
      env.fsExists with e | cfg
  · unfold run
    rw [hval]
    simp
  · by_cases hn : env.nodeMajor < 10
    · unfold run
      rw [hval]
      simp [hn]
    · have hnode := Nat.le_of_not_lt hn
      rcases hver : verifyProjectTemplate (isLocalTemplate cfg.template)
          env.localTemplateKeywords env.remoteKeywordsQuery with e2 | u
      · have hrun : run env = ⟨[Effect.printErrorMsg (verifyErrorMsg e2)], 1⟩ := by
          rw [run_ok_unfold env cfg hval hnode, hver]
        rw [hrun]
        simp [isFinalInstallEffect]
      · cases u
        by_cases hl : isLocalTemplate cfg.template
        · rw [run_verified_local env cfg hval hnode hver hl]
          exact ⟨runAfterFetch_exit_zero _ _ _, runAfterFetch_install_fail _ _ _,
            runAfterFetch_final_once _ _ _ (by simp [isFinalInstallEffect])⟩
        · simp only [Bool.not_eq_true] at hl
          rcases hf : env.remoteFetchOk with _ | _
          · rw [run_verified_remote_fail env cfg hval hnode hver hl hf]
            simp [isFinalInstallEffect]
          · rw [run_verified_remote_ok env cfg hval hnode hver hl hf]
            exact ⟨runAfterFetch_exit_zero _ _ _, runAfterFetch_install_fail _ _ _,
              runAfterFetch_final_once _ _ _ (by simp [isFinalInstallEffect])⟩

/-- Witness for C6 at a concrete failing final install. -/
theorem c6_final_install_failure_is_fatal_witness :
    envInstallFail.finalInstallOk = false ∧ (run envInstallFail).exitCode = 1 :=
  ⟨rfl, (c6_final_install_failure_is_fatal envInstallFail).2.1 rfl⟩

/-- C9: installProcess realizes exactly the specification's command table
for the selected package manager, and a successful run records that exact
final install invocation. -/
theorem c9_final_install_command_mapping (env : Env) (cfg : Config)
    (hval : validateArgs env.cwd env.args env.yarnInstalled env.pnpmInstalled
        env.fsExists = Except.ok cfg) :
    installProcess (installerOf cfg) cfg.verbose = some (specInstallCommand cfg) ∧
    ((run env).exitCode = 0 →
      Effect.runFinalInstall (specInstallCommand cfg).1 (specInstallCommand cfg).2 ∈
        (run env).effects) := by
  have hmap : installProcess (installerOf cfg) cfg.verbose =
      some (specInstallCommand cfg) := by
    unfold installerOf specInstallCommand installProcess
    by_cases hy : cfg.useYarn <;> by_cases hp : cfg.usePnpm <;> simp [hy, hp]
  refine ⟨hmap, ?_⟩
  intro h0
  by_cases hn : env.nodeMajor < 10
  · unfold run at h0
    rw [hval] at h0
    simp [hn] at h0
  · have hnode := Nat.le_of_not_lt hn
    rcases hver : verifyProjectTemplate (isLocalTemplate cfg.template)
        env.localTemplateKeywords env.remoteKeywordsQuery with e2 | u
    · have hrun : run env = ⟨[Effect.printErrorMsg (verifyErrorMsg e2)], 1⟩ := by
        rw [run_ok_unfold env cfg hval hnode, hver]
      rw [hrun] at h0
      simp at h0
    · cases u
      by_cases hl : isLocalTemplate cfg.template
      · have hrun := run_verified_local env cfg hval hnode hver hl
        rw [hrun] at h0 ⊢
        obtain ⟨exe, cmdArgs, heq, hmem⟩ := runAfterFetch_final_cmd _ _ _ h0
        have hsp : specInstallCommand cfg = (exe, cmdArgs) := by
          rw [hmap] at heq
          exact Option.some.inj heq
        rw [hsp]
        exact hmem
      · simp only [Bool.not_eq_true] at hl
        rcases hf : env.remoteFetchOk with _ | _
        · have hrun := run_verified_remote_fail env cfg hval hnode hver hl hf
          rw [hrun] at h0
          simp at h0
        · have hrun := run_verified_remote_ok env cfg hval hnode hver hl hf
          rw [hrun] at h0 ⊢
          obtain ⟨exe, cmdArgs, heq, hmem⟩ := runAfterFetch_final_cmd _ _ _ h0
          have hsp : specInstallCommand cfg = (exe, cmdArgs) := by
            rw [hmap] at heq
            exact Option.some.inj heq
          rw [hsp]
          exact hmem

/-- Witness for C9: the successful concrete run records the npm mapping. -/
theorem c9_final_install_command_mapping_witness :
    Effect.runFinalInstall (specInstallCommand cfgLocalOk).1
        (specInstallCommand cfgLocalOk).2 ∈ (run envOk).effects :=
  (c9_final_install_command_mapping envOk cfgLocalOk rfl).2 rfl

end CreateIndexApp
